import Mathlib

/-!
Verification of the marketing delivery and engagement-measurement pipeline
(campaigns, email sends, social posts, engagement tracking, daily stats).

This file is a shallow embedding of the relevant JavaScript source:
  src/utils/marketingHelpers.js   (segment resolvers, event recording, daily stats)
  src/utils/marketingCron.js      (scheduler ticks, stats aggregation)
  src/routes/marketing.js         (route handlers)
  src/models/*.js                 (mongoose schemas: field sets, enums, defaults,
                                   the unique (campaignId, date) index, required fields)

Timestamps are naturals (milliseconds since epoch); Mongo object ids are
naturals; documents are structures; a collection is a list of documents.
Mongoose runs updates in strict mode, so a dollar-inc on a path that is not in
the schema is silently dropped; that behaviour is modelled explicitly.
-/

namespace Backend

/-- Cumulative counter sub-document of an EmailCampaign
(statsSchema in models/EmailCampaign.js and emailStatsSchema in the
MarketingStats model). -/
structure EmailStats where
  sent : Nat
  delivered : Nat
  opens : Nat
  clicks : Nat
  bounces : Nat
deriving DecidableEq, Repr

/-- Schema defaults: every counter starts at 0. -/
def EmailStats.zero : EmailStats := ⟨0, 0, 0, 0, 0⟩

/-- Snapshot counter sub-document of a SocialPost (statsSchema in
models/SocialPost.js). -/
structure PostStats where
  impressions : Nat
  clicks : Nat
  likes : Nat
  shares : Nat
  comments : Nat
deriving DecidableEq, Repr

def PostStats.zero : PostStats := ⟨0, 0, 0, 0, 0⟩

/-- Aggregated social sub-document of a MarketingStats row
(socialStatsSchema: impressions, clicks, engagements). -/
structure SocialAgg where
  impressions : Nat
  clicks : Nat
  engagements : Nat
deriving DecidableEq, Repr

def SocialAgg.zero : SocialAgg := ⟨0, 0, 0⟩

/-- EmailCampaign status enum. -/
inductive EmailStatus
  | Draft | Queued | Sending | Sent | Failed
deriving DecidableEq, Repr

/-- SocialPost status enum. -/
inductive PostStatus
  | Draft | Queued | Posted | Failed
deriving DecidableEq, Repr

/-- MarketingCampaign status enum. -/
inductive CampaignStatus
  | Scheduled | Active | Paused | Completed
deriving DecidableEq, Repr

/-- Booking status enum ('pending', 'paid', 'checked-in', 'cancelled'). -/
inductive BookingStatus
  | pending | paid | checkedIn | cancelled
deriving DecidableEq, Repr

/-- Segment status filter enum ('all', 'checked', 'not_checked'). -/
inductive SegStatus
  | all | checked | not_checked
deriving DecidableEq, Repr

/-- Targeting segment (segmentSchema embedded in EmailCampaign, targetSchema in
MarketingCampaign): status filter, interest list, location list, age bounds. -/
structure Segment where
  status : SegStatus
  interests : List String
  locations : List String
  minAge : Option Nat
  maxAge : Option Nat
deriving DecidableEq, Repr

/-- Schema defaults: status 'all', empty lists, no age bounds. -/
def Segment.default : Segment := ⟨.all, [], [], none, none⟩

/-- A user-directory entry, with the fields the resolvers read. -/
structure UserRec where
  id : Nat
  email : String
  age : Nat
  location : String
  interests : List String
deriving DecidableEq, Repr

/-- A booking document (models/Booking.js), restricted to the fields the
marketing code reads: user, pricePaid, status, sourceCampaign, createdAt. -/
structure BookingRec where
  user : Nat
  pricePaid : Nat
  status : BookingStatus
  sourceCampaign : Option String
  createdAt : Nat
deriving DecidableEq, Repr

/- ===== Segment resolvers ===== -/

/-- Mongo dollar-in on an array field: the user's array has at least one
element among the requested values. -/
def anyIn (xs ys : List String) : Bool := xs.any (fun x => ys.contains x)

/-- JavaScript truthiness of an optional number: present and nonzero. -/
def optTruthy : Option Nat → Bool
  | some n => decide (n ≠ 0)
  | none => false

/-- resolveSegmentQuery (marketingHelpers.js lines 19-41): conjunctive filter
over interests (any-of), locations (any-of) and the age range.  The age
bounds are guarded by JavaScript truthiness, and NO status predicate of any
kind is built. -/
def resolveSegmentQuery (segment : Segment) (users : List UserRec) : List UserRec :=
  users.filter fun u =>
    (segment.interests.isEmpty || anyIn u.interests segment.interests)
    && (segment.locations.isEmpty || segment.locations.contains u.location)
    && (!optTruthy segment.minAge || decide (segment.minAge.getD 0 ≤ u.age))
    && (!optTruthy segment.maxAge || decide (u.age ≤ segment.maxAge.getD 0))

/-- Distinct user ids of a booking list (Mongo distinct on the user field). -/
def distinctUsers (bs : List BookingRec) : List Nat := (bs.map (fun b => b.user)).dedup

/-- Distinct users having at least one checked-in booking
(Booking.find status checked-in, distinct user). -/
def checkedInUsers (bs : List BookingRec) : List Nat :=
  distinctUsers (bs.filter (fun b => b.status = .checkedIn))

/-- Distinct users having at least one booking of any status. -/
def allBookingUsers (bs : List BookingRec) : List Nat := distinctUsers bs

/-- JavaScript Array.includes applied to the ObjectId instances returned by
two SEPARATE distinct() queries: includes uses SameValueZero, which compares
objects by reference, and the instances are always fresh, so the test is
false for every element regardless of the ids' values. -/
def objectIdIncludes (_haystack : List Nat) (_needle : Nat) : Bool := false

/-- The attempted set difference of getSegmentedRecipients for the
not_checked status: allBookingUsers filtered by the negated includes test.
Because includes compares ObjectId instances by reference (see
objectIdIncludes), nothing is ever subtracted and the result is every user
with a booking of any status, checked-in ones included. -/
def notCheckedInUsers (bs : List BookingRec) : List Nat :=
  (allBookingUsers bs).filter (fun u => !objectIdIncludes (checkedInUsers bs) u)

/-- The non-status (profile) part of the getSegmentedRecipients filter:
interests any-of, locations any-of, age bounds applied whenever the bound is
defined (strict undefined checks, unlike resolveSegmentQuery's truthiness). -/
def profileFiltersOk (segment : Segment) (u : UserRec) : Bool :=
  (segment.interests.isEmpty || anyIn u.interests segment.interests)
  && (segment.locations.isEmpty || segment.locations.contains u.location)
  && (match segment.minAge with | some a => decide (a ≤ u.age) | none => true)
  && (match segment.maxAge with | some a => decide (u.age ≤ a) | none => true)

/-- getSegmentedRecipients (marketingHelpers.js lines 334-378): status
predicate (checked: member of checkedInUsers; not_checked: member of
notCheckedInUsers, whose attempted subtraction never fires; all: no
constraint) conjoined with the profile filters. -/
def getSegmentedRecipients (segment : Segment) (users : List UserRec)
    (bookings : List BookingRec) : List UserRec :=
  users.filter fun u =>
    (match segment.status with
      | .checked => (checkedInUsers bookings).contains u.id
      | .not_checked => (notCheckedInUsers bookings).contains u.id
      | .all => true)
    && profileFiltersOk segment u

/- ===== Documents and the persistent store ===== -/

/-- An EmailCampaign document (models/EmailCampaign.js), with the fields the
marketing code reads and writes. -/
structure EmailJob where
  id : Nat
  campaignId : Nat
  subject : String
  templateHtml : String
  fromEmail : String
  segment : Segment
  status : EmailStatus
  provider : String
  stats : EmailStats
  scheduledAt : Option Nat
  sentAt : Option Nat
  recipientsCount : Nat
  recipientsProcessed : Nat
  nextBatchAt : Option Nat
  trackingEnabled : Bool
  recipientCount : Nat
deriving DecidableEq, Repr

/-- A SocialPost document (models/SocialPost.js). -/
structure SocialPostRec where
  id : Nat
  campaignId : Nat
  platform : String
  content : String
  scheduledAt : Option Nat
  status : PostStatus
  linkUrl : Option String
  imageUrl : Option String
  stats : PostStats
  postedAt : Option Nat
deriving DecidableEq, Repr

/-- A MarketingCampaign document (marketingCampaignSchema), with the fields the
aggregator reads. -/
structure CampaignRec where
  id : Nat
  status : CampaignStatus
  utmCode : String
  startAt : Nat
  endAt : Nat
deriving DecidableEq, Repr

/-- An EmailEvent document (models/EmailEvent.js): owning email campaign,
optional attendee, event kind string, optional url, timestamp. -/
structure EventRec where
  emailCampaignId : Nat
  attendeeId : Option Nat
  event : String
  url : Option String
  ts : Nat
deriving DecidableEq, Repr

/-- A MarketingStats row (marketingStatsSchema): keyed by campaignId and a
date string in YYYY-MM-DD form, carrying reach, conversions, revenue and the
email and social sub-stats. -/
structure StatsRow where
  campaignId : Nat
  date : String
  reach : Nat
  conversions : Nat
  revenue : Nat
  email : EmailStats
  social : SocialAgg
deriving DecidableEq, Repr

/-- The value part of a MarketingStats row (everything but the key). -/
structure StatsValues where
  reach : Nat
  conversions : Nat
  revenue : Nat
  email : EmailStats
  social : SocialAgg
deriving DecidableEq, Repr

/-- The whole persistent store: one list per collection. -/
structure Store where
  users : List UserRec
  campaigns : List CampaignRec
  emailJobs : List EmailJob
  socialPosts : List SocialPostRec
  bookings : List BookingRec
  statsRows : List StatsRow
  events : List EventRec
deriving DecidableEq, Repr

/-- The wall clock, as the code derives it: now in milliseconds, today as a
YYYY-MM-DD string (toISOString split at T), and the millisecond timestamp of
today's 00:00 UTC (new Date of the date string). -/
structure Clock where
  now : Nat
  todayStr : String
  todayStart : Nat
deriving DecidableEq, Repr

/-- Milliseconds in a day (24 * 60 * 60 * 1000). -/
def dayMs : Nat := 86400000

/-- Update the email job with the given id (findByIdAndUpdate / save of a
fetched document). -/
def modifyJob (st : Store) (emailId : Nat) (f : EmailJob → EmailJob) : Store :=
  { st with emailJobs := st.emailJobs.map (fun j => if j.id = emailId then f j else j) }

/-- Find the email job with the given id. -/
def getJob (st : Store) (emailId : Nat) : Option EmailJob :=
  st.emailJobs.find? (fun j => j.id == emailId)

/- ===== MarketingStats upserts ===== -/

/-- Build a fresh MarketingStats row from its key and values (upsert insert;
schema defaults fill nothing here because every value is set). -/
def mkStatsRow (cid : Nat) (date : String) (v : StatsValues) : StatsRow :=
  ⟨cid, date, v.reach, v.conversions, v.revenue, v.email, v.social⟩

/-- Overwrite every value field of a row (the dollar-set of
updateMarketingStats, which sets reach, conversions, revenue, email, social). -/
def setStatsValues (r : StatsRow) (v : StatsValues) : StatsRow :=
  { r with reach := v.reach, conversions := v.conversions, revenue := v.revenue,
           email := v.email, social := v.social }

/-- Extract the value part of a row. -/
def statsValuesOf (r : StatsRow) : StatsValues :=
  ⟨r.reach, r.conversions, r.revenue, r.email, r.social⟩

/-- MarketingStats.findOneAndUpdate on the (campaignId, date) key with upsert
(marketingCron.js lines 262-274): overwrite the first row with that key, or
append a fresh row when none exists.  The compound unique index on
(campaignId, date) (marketingStatsSchema, twoFactorHelper.js lines 323-324)
guarantees at most one match. -/
def upsertStats (rows : List StatsRow) (cid : Nat) (date : String)
    (v : StatsValues) : List StatsRow :=
  match rows with
  | [] => [mkStatsRow cid date v]
  | r :: rest =>
    if r.campaignId = cid ∧ r.date = date then setStatsValues r v :: rest
    else r :: upsertStats rest cid date v

/-- Find the MarketingStats row for a (campaignId, date) key. -/
def findStatsRow (rows : List StatsRow) (cid : Nat) (date : String) : Option StatsRow :=
  rows.find? (fun r => decide (r.campaignId = cid ∧ r.date = date))

/- ===== updateDailyStats (marketingHelpers.js lines 80-150) =====

A stateful call that may throw is embedded as Store -> Store x Option String:
the first component is the state the call left behind, the second is some
error message exactly when the call threw. -/

/-- updateDailyStats: the module marketingHelpers.js never imports mongoose,
so the first model lookup (mongoose.model at line 85) raises a
ReferenceError before any read or write; the function's catch logs the error
and rethrows it.  Net effect: the store is untouched and the call throws.
The aggregation and upsert written on the following lines never execute. -/
def updateDailyStats (st : Store) (_campaignId : Nat) (_clk : Clock) :
    Store × Option String :=
  (st, some ("mongoose is not defined"))

/- ===== recordEmailEvent (marketingHelpers.js lines 46-75) ===== -/

/-- recordEmailEvent: EmailEvent.create succeeds (EmailEvent IS imported in
marketingHelpers.js) and appends the event document; the next statement
looks up mongoose.model at line 58, but the module never imports mongoose,
so a ReferenceError is raised there; the function's catch logs and rethrows
it.  Net effect: exactly one appended event and a thrown error — the
counter increment on the owning EmailCampaign and the updateDailyStats call
written on the following lines are unreachable. -/
def recordEmailEvent (st : Store) (emailCampaignId : Nat) (attendeeId : Option Nat)
    (eventType : String) (url : Option String) (clk : Clock) :
    Store × Option String :=
  ({ st with events :=
      st.events ++ [(⟨emailCampaignId, attendeeId, eventType, url, clk.now⟩ : EventRec)] },
   some ("mongoose is not defined"))

/- ===== Stats aggregation (marketingCron.js lines 190-281) =====

marketingCron.js never imports MarketingCampaign, Booking or MarketingStats,
so at runtime updateMarketingStats aborts with a ReferenceError at its first
statement, which its own try/catch logs and swallows: the function is a
logged no-op (see updateMarketingStats below).  The per-campaign aggregation
and upsert WRITTEN in its loop body (lines 233-276) are nevertheless
embedded here — computeEmailStats, computeSocialStats, campaignStatsValues,
recomputeCampaignDaily — to analyse the written upsert logic; every
statement proved about recomputeCampaignDaily (uniqueness, idempotence)
also holds trivially of the runtime no-op. -/

/-- computeEmailStats: sum every counter over all EmailCampaigns of the given
marketing campaign, regardless of status (ensureStats fills absent counters
with 0, which the total-field model already guarantees). -/
def computeEmailStats (jobs : List EmailJob) (cid : Nat) : EmailStats :=
  (jobs.filter (fun j => j.campaignId = cid)).foldl
    (fun acc j =>
      ⟨acc.sent + j.stats.sent, acc.delivered + j.stats.delivered,
       acc.opens + j.stats.opens, acc.clicks + j.stats.clicks,
       acc.bounces + j.stats.bounces⟩)
    EmailStats.zero

/-- computeSocialStats: over the campaign's social posts WITH STATUS Posted,
sum impressions and clicks, and sum likes plus shares plus comments as
engagements. -/
def computeSocialStats (posts : List SocialPostRec) (cid : Nat) : SocialAgg :=
  (posts.filter (fun p => p.campaignId = cid ∧ p.status = .Posted)).foldl
    (fun acc p =>
      ⟨acc.impressions + p.stats.impressions, acc.clicks + p.stats.clicks,
       acc.engagements + (p.stats.likes + p.stats.shares + p.stats.comments)⟩)
    SocialAgg.zero

/-- The per-campaign loop body WRITTEN in updateMarketingStats
(marketingCron.js lines 233-276), unreachable at runtime (see the section
comment): email and social sums; bookings matched on sourceCampaign equal to
the campaign's utmCode and createdAt at or after today's 00:00 — the query
has NO upper bound on createdAt; revenue is the sum of pricePaid over the
same match; reach is delivered plus impressions. -/
def campaignStatsValues (st : Store) (c : CampaignRec) (todayStart : Nat) : StatsValues :=
  let eStats := computeEmailStats st.emailJobs c.id
  let sStats := computeSocialStats st.socialPosts c.id
  let matched := st.bookings.filter (fun b =>
    b.sourceCampaign = some c.utmCode ∧ todayStart ≤ b.createdAt)
  ⟨eStats.delivered + sStats.impressions, matched.length,
   (matched.map (fun b => b.pricePaid)).sum, eStats, sStats⟩

/-- One WRITTEN loop iteration of updateMarketingStats, unreachable at
runtime (see the section comment): recompute the campaign's values for today
and upsert the (campaignId, today) MarketingStats row. -/
def recomputeCampaignDaily (st : Store) (c : CampaignRec) (clk : Clock) : Store :=
  { st with statsRows :=
      upsertStats st.statsRows c.id clk.todayStr (campaignStatsValues st c clk.todayStart) }

/-- updateMarketingStats (marketingCron.js lines 225-281) as it RUNS: its
first statement references MarketingCampaign, which the module never
imports, so a ReferenceError is raised immediately; the function's own
try/catch logs it and swallows it (no rethrow).  Net effect: the store is
returned unchanged — no row is ever computed or upserted. -/
def updateMarketingStats (st : Store) (_clk : Clock) : Store := st

/- ===== Email send route (marketing.js lines 558-627) ===== -/

/-- Printable form of an email status, for the interpolated error message. -/
def EmailStatus.str : EmailStatus → String
  | .Draft => "Draft"
  | .Queued => "Queued"
  | .Sending => "Sending"
  | .Sent => "Sent"
  | .Failed => "Failed"

/-- Outcome of the synchronous part of the send route. -/
inductive SendOutcome
  | rejected (msg : String)
  | queued (recipientCount : Nat)
deriving DecidableEq, Repr

/-- Synchronous part of POST email id send: reject unless the job is Draft;
resolve recipients live with resolveSegmentQuery; reject when that set is
empty; otherwise set status Queued and nextBatchAt now. -/
def sendEmailRouteSync (job : EmailJob) (users : List UserRec) (now : Nat) :
    SendOutcome × EmailJob :=
  if job.status ≠ .Draft then
    (.rejected ("Cannot send an email with status: " ++ job.status.str), job)
  else
    let recips := resolveSegmentQuery job.segment users
    if recips.isEmpty then (.rejected ("No recipients match the segment criteria"), job)
    else (.queued recips.length, { job with status := .Queued, nextBatchAt := some now })

/-- The fixed batch size of the send route. -/
def BATCH_SIZE : Nat := 10

/-- MockEmailProvider.sendEmail (marketingHelpers.js lines 177-213): its
first await is recordEmailEvent with event type sent, which appends the
event and throws (missing mongoose import); sendEmail does not catch, so
the error propagates to the caller and the randomized delivery simulation
written below that line never starts. -/
def sendEmailMock (st : Store) (emailId : Nat) (r : UserRec) (clk : Clock) :
    Store × Option String :=
  recordEmailEvent st emailId (some r.id) ("sent") none clk

/-- The awaited for-loop over a batch: on the first iteration that throws,
the error propagates and the remaining recipients are not attempted. -/
def runBatch (st : Store) (emailId : Nat) (batch : List UserRec) (clk : Clock) :
    Store × Option String :=
  match batch with
  | [] => (st, none)
  | r :: rest =>
    let res := sendEmailMock st emailId r clk
    match res.2 with
    | some e => (res.1, some e)
    | none => runBatch res.1 emailId rest clk

/-- The detached batch task of POST email id send (the setTimeout body,
marketing.js lines 592-617, with the default mock provider): set status
Sending, then loop sendEmailMock over the FIRST ten recipients inside the
task's try block.  With a non-empty batch the very first sendEmailMock
appends one sent event and throws, so the catch marks the job Failed; the
written continuation — nextBatchAt five minutes ahead or status Sent, then
updateDailyStats — only runs when the whole loop returns, and the
updateDailyStats throw is caught by the same catch. -/
def emailSendFirstBatch (st : Store) (emailId : Nat) (campaignId : Nat)
    (recips : List UserRec) (clk : Clock) : Store :=
  let st1 := modifyJob st emailId (fun j => { j with status := .Sending })
  let res := runBatch st1 emailId (recips.take BATCH_SIZE) clk
  match res.2 with
  | some _ => modifyJob res.1 emailId (fun j => { j with status := .Failed })
  | none =>
    let st3 :=
      if BATCH_SIZE < recips.length then
        modifyJob res.1 emailId (fun j => { j with nextBatchAt := some (clk.now + 300000) })
      else
        modifyJob res.1 emailId (fun j => { j with status := .Sent, nextBatchAt := none })
    match updateDailyStats st3 campaignId clk with
    | (st4, some _) => modifyJob st4 emailId (fun j => { j with status := .Failed })
    | (st4, none) => st4

/- ===== Scheduler tick (initMarketingCron, marketingCron.js lines 291-338) ===== -/

/-- Whether a stored schedule time is due: present and not after now. -/
def dueAt (sched : Option Nat) (now : Nat) : Bool :=
  match sched with
  | some t => decide (t ≤ now)
  | none => false

/-- Math.floor of n times 0.95, the simulated 95 percent delivery rate. -/
def floor95 (n : Nat) : Nat := n * 95 / 100

/-- One email tick of the scheduler: every EmailCampaign with status Queued
and an elapsed scheduledAt is processed: recipients are resolved live from
its segment with getSegmentedRecipients, then status is set to Sent, sentAt
to now, stats.sent is OVERWRITTEN with the recipient count, stats.delivered
with its 95 percent floor, and the recipient totals are set.  Jobs in any
other status — including Sending — are not selected. -/
def cronEmailTick (st : Store) (now : Nat) : Store :=
  { st with emailJobs := st.emailJobs.map (fun j =>
      if j.status = .Queued ∧ dueAt j.scheduledAt now then
        let recips := getSegmentedRecipients j.segment st.users st.bookings
        let s' := { j.stats with sent := recips.length, delivered := floor95 recips.length }
        { j with status := .Sent, sentAt := some now, stats := s',
                 recipientsCount := recips.length, recipientsProcessed := recips.length }
      else j) }

/- ===== Email update route (marketing.js lines 499-552) ===== -/

/-- The optional edit fields of PUT email id. -/
structure EmailEdits where
  subject : Option String
  templateHtml : Option String
  fromEmail : Option String
  segment : Option Segment
  provider : Option String
deriving DecidableEq, Repr

/-- Apply the supplied edits to a draft job; a supplied segment also refreshes
the stored recipientCount from a live resolve. -/
def applyEmailEdits (job : EmailJob) (e : EmailEdits) (users : List UserRec) : EmailJob :=
  let j1 := match e.subject with | some s => { job with subject := s } | none => job
  let j2 := match e.templateHtml with | some s => { j1 with templateHtml := s } | none => j1
  let j3 := match e.fromEmail with | some s => { j2 with fromEmail := s } | none => j2
  let j4 := match e.segment with
    | some sg => { j3 with segment := sg, recipientCount := (resolveSegmentQuery sg users).length }
    | none => j3
  match e.provider with | some s => { j4 with provider := s } | none => j4

/-- PUT email id: reject with an error and leave the record untouched unless
the job status is Draft; otherwise apply the edits and save. -/
def updateEmailRoute (job : EmailJob) (e : EmailEdits) (users : List UserRec) :
    Option String × EmailJob :=
  if job.status ≠ .Draft then (some ("Only draft emails can be updated"), job)
  else (none, applyEmailEdits job e users)

/- ===== Tracking routes (marketing.js lines 633-690) ===== -/

/-- The recipient-facing artifact of a tracking request. -/
inductive TrackResponse
  | pixel
  | redirect (url : String)
  | badRequest
deriving DecidableEq, Repr

/-- GET email id track open: when a recipient parameter is present, attempt
recordEmailEvent with event type open inside a try-catch whose failure is
only logged; in every case respond with the 1x1 transparent pixel.  The
persistFails flag injects a failure of the event insert itself (in that case
the store is left untouched); when the insert succeeds, the state is
whatever recordEmailEvent left behind — the appended event only, since the
helper then throws before the counter increment and the catch swallows it. -/
def trackOpenRoute (st : Store) (emailId : Nat) (recipient : Option Nat)
    (persistFails : Bool) (clk : Clock) : TrackResponse × Store :=
  match recipient with
  | none => (.pixel, st)
  | some r =>
    if persistFails then (.pixel, st)
    else (.pixel, (recordEmailEvent st emailId (some r) ("open") none clk).1)

/-- GET email tracking id click: on a validation failure the handler still
redirects whenever a url is present (else 400); otherwise it increments
stats.clicks on the EmailCampaign with a dollar-inc — appending NO
EmailEvent — and redirects; if the increment throws, the catch block
redirects to the supplied url. -/
def trackClickRoute (st : Store) (emailId : Nat) (url : Option String)
    (urlValid : Bool) (persistFails : Bool) : TrackResponse × Store :=
  match url with
  | none => (.badRequest, st)
  | some u =>
    if !urlValid then (.redirect u, st)
    else if persistFails then (.redirect u, st)
    else (.redirect u,
      { st with emailJobs := st.emailJobs.map (fun j =>
          if j.id = emailId then { j with stats := { j.stats with clicks := j.stats.clicks + 1 } }
          else j) })

/- ===== Social schedule route (marketing.js lines 875-930) ===== -/

/-- Printable form of a post status, for the interpolated error message. -/
def PostStatus.str : PostStatus → String
  | .Draft => "Draft"
  | .Queued => "Queued"
  | .Posted => "Posted"
  | .Failed => "Failed"

/-- Printable form of a campaign status, for the interpolated error message. -/
def CampaignStatus.str : CampaignStatus → String
  | .Scheduled => "Scheduled"
  | .Active => "Active"
  | .Paused => "Paused"
  | .Completed => "Completed"

/-- POST social id schedule: reject unless the post is Draft; reject unless
the parent campaign status is Active; then, when scheduledAt is missing or
not after now, silently replace it with now plus one minute (60000 ms);
finally set status Queued. -/
def scheduleSocialRoute (post : SocialPostRec) (campaignStatus : CampaignStatus)
    (now : Nat) : Option String × SocialPostRec :=
  if post.status ≠ .Draft then
    (some ("Cannot schedule social post with status: " ++ post.status.str), post)
  else if campaignStatus ≠ .Active then
    (some ("Cannot schedule post for campaign with status: " ++ campaignStatus.str), post)
  else
    let sched := match post.scheduledAt with
      | some t => if t ≤ now then now + 60000 else t
      | none => now + 60000
    (none, { post with scheduledAt := some sched, status := .Queued })

/- ===== Dispatch event recording (processEmailCampaign, marketingCron.js
lines 81-162, and the EmailEvent schema) ===== -/

/-- EmailEvent schema validation: attendeeId is declared required, so a
document with a null attendeeId is invalid (models/EmailEvent.js lines 9-13)
and could never be persisted. -/
def emailEventValid (e : EventRec) : Bool := e.attendeeId.isSome

/-- processEmailCampaign (marketingCron.js lines 81-162): the job is set to
Sending and saved; the try block then resolves recipients through
safeGetSegmentedRecipients, whose typeof guard on the never-defined helper
name is false, taking the fallback User.find — but User is not imported in
this module, so a ReferenceError is raised before any send, counter update
or event construction; the catch sets status Failed (the error-message
assignment targets a path absent from the schema and is dropped on save).
The sent-event construction and the EmailEvent.insertMany written at lines
144-152 — itself referencing the unimported EmailEvent — are unreachable. -/
def processEmailCampaign (st : Store) (emailId : Nat) : Store :=
  let st1 := modifyJob st emailId (fun j => { j with status := .Sending })
  modifyJob st1 emailId (fun j => { j with status := .Failed })

/- ===== Theorems: daily stats uniqueness and idempotence (C1, C3) ===== -/

/-- At most one MarketingStats row per (campaignId, date): no two rows of the
store share the compound key. -/
def StatsUnique (rows : List StatsRow) : Prop :=
  rows.Pairwise (fun a b => ¬ (a.campaignId = b.campaignId ∧ a.date = b.date))

instance statsUniqueDecidable (rows : List StatsRow) : Decidable (StatsUnique rows) :=
  @List.instDecidablePairwise _ _ (fun _ _ => instDecidableNot) rows

theorem upsertStats_key_mem (rows : List StatsRow) (cid : Nat) (date : String)
    (v : StatsValues) (x : StatsRow) (hx : x ∈ upsertStats rows cid date v) :
    (x.campaignId = cid ∧ x.date = date) ∨ x ∈ rows := by
  induction rows with
  | nil =>
    simp only [upsertStats, List.mem_singleton] at hx
    subst hx
    exact Or.inl ⟨rfl, rfl⟩
  | cons r rest ih =>
    by_cases h : r.campaignId = cid ∧ r.date = date
    · rw [upsertStats, if_pos h] at hx
      rcases List.mem_cons.mp hx with h1 | h2
      · subst h1
        exact Or.inl h
      · exact Or.inr (List.mem_cons_of_mem _ h2)
    · rw [upsertStats, if_neg h] at hx
      rcases List.mem_cons.mp hx with h1 | h2
      · subst h1
        exact Or.inr (List.mem_cons_self _ _)
      · rcases ih h2 with h3 | h4
        · exact Or.inl h3
        · exact Or.inr (List.mem_cons_of_mem _ h4)

theorem statsUnique_upsert (rows : List StatsRow) (cid : Nat) (date : String)
    (v : StatsValues) (h : StatsUnique rows) :
    StatsUnique (upsertStats rows cid date v) := by
  induction rows with
  | nil => simp [upsertStats, StatsUnique]
  | cons r rest ih =>
    rcases List.pairwise_cons.mp h with ⟨h1, h2⟩
    by_cases hk : r.campaignId = cid ∧ r.date = date
    · rw [upsertStats, if_pos hk]
      exact List.pairwise_cons.mpr ⟨fun b hb => h1 b hb, h2⟩
    · rw [upsertStats, if_neg hk]
      refine List.pairwise_cons.mpr ⟨fun b hb => ?_, ih h2⟩
      rcases upsertStats_key_mem rest cid date v b hb with hb1 | hb2
      · intro hcontra
        exact hk ⟨hcontra.1.trans hb1.1, hcontra.2.trans hb1.2⟩
      · exact h1 b hb2

theorem upsertStats_idem (rows : List StatsRow) (cid : Nat) (date : String)
    (v : StatsValues) :
    upsertStats (upsertStats rows cid date v) cid date v = upsertStats rows cid date v := by
  induction rows with
  | nil =>
    show upsertStats [mkStatsRow cid date v] cid date v = [mkStatsRow cid date v]
    rw [upsertStats, if_pos (⟨rfl, rfl⟩ :
      (mkStatsRow cid date v).campaignId = cid ∧ (mkStatsRow cid date v).date = date)]
    rfl
  | cons r rest ih =>
    by_cases h : r.campaignId = cid ∧ r.date = date
    · rw [upsertStats, if_pos h]
      have hk : (setStatsValues r v).campaignId = cid ∧ (setStatsValues r v).date = date := h
      rw [upsertStats, if_pos hk]
      rfl
    · rw [upsertStats, if_neg h, upsertStats, if_neg h, ih]

theorem recomputeCampaignDaily_idem (st : Store) (c : CampaignRec) (clk : Clock) :
    recomputeCampaignDaily (recomputeCampaignDaily st c clk) c clk
    = recomputeCampaignDaily st c clk := by
  unfold recomputeCampaignDaily
  congr 1
  exact upsertStats_idem st.statsRows c.id clk.todayStr (campaignStatsValues st c clk.todayStart)

/-- C1.  For every campaign and clock (hence calendar date), running the
daily-stats recomputation preserves the at-most-one-row-per-(campaignId, date)
invariant of the MarketingStats store, and running it any number of times in
a row with no intervening data change stores exactly what a single run
stores, so repeated runs yield the identical row. -/
theorem c1_daily_stats_unique_and_idempotent (st : Store) (c : CampaignRec)
    (clk : Clock) (hinv : StatsUnique st.statsRows) :
    StatsUnique (recomputeCampaignDaily st c clk).statsRows
    ∧ ∀ n : Nat, (fun s => recomputeCampaignDaily s c clk)^[n + 1] st
        = recomputeCampaignDaily st c clk := by
  constructor
  · exact statsUnique_upsert st.statsRows c.id clk.todayStr _ hinv
  · intro n
    induction n with
    | zero => rfl
    | succ m ihm =>
      rw [Function.iterate_succ_apply', ihm]
      exact recomputeCampaignDaily_idem st c clk

def c1Campaign : CampaignRec := ⟨1, .Active, "cmp-ab12", 0, 10⟩

def c1Store : Store :=
  ⟨[], [c1Campaign], [], [], [⟨7, 2500, .paid, some ("cmp-ab12"), 1000⟩], [], []⟩

def c1Clock : Clock := ⟨4000, "2025-01-01", 0⟩

theorem c1_witness :
    StatsUnique c1Store.statsRows
    ∧ StatsUnique (recomputeCampaignDaily c1Store c1Campaign c1Clock).statsRows
    ∧ (fun s => recomputeCampaignDaily s c1Campaign c1Clock)^[3] c1Store
        = recomputeCampaignDaily c1Store c1Campaign c1Clock :=
  ⟨by decide,
   (c1_daily_stats_unique_and_idempotent c1Store c1Campaign c1Clock (by decide)).1,
   (c1_daily_stats_unique_and_idempotent c1Store c1Campaign c1Clock (by decide)).2 2⟩

/-- Following the spec's words, for comparison with the code: conversions
counted over bookings attributed to the code inside the exact calendar-day
window from dayStart inclusive to dayStart plus one day exclusive. -/
def specConversionsInDayWindow (bookings : List BookingRec) (code : String)
    (dayStart : Nat) : Nat :=
  (bookings.filter (fun b => b.sourceCampaign = some code
    ∧ dayStart ≤ b.createdAt ∧ b.createdAt < dayStart + dayMs)).length

/-- Following the spec's words, for comparison with the code: revenue summed
over bookings attributed to the code inside the exact calendar-day window. -/
def specRevenueInDayWindow (bookings : List BookingRec) (code : String)
    (dayStart : Nat) : Nat :=
  ((bookings.filter (fun b => b.sourceCampaign = some code
    ∧ dayStart ≤ b.createdAt ∧ b.createdAt < dayStart + dayMs)).map
      (fun b => b.pricePaid)).sum

def c3Campaign : CampaignRec := ⟨1, .Active, "cmp-ab12", 0, 10⟩

/-- Three bookings on the snapshot day totalling 7500, all attributed to the
code cmp-ab12, under an Active campaign — the end-to-end scenario of the
claim. -/
def c3Store : Store :=
  ⟨[], [c3Campaign], [], [],
   [⟨1, 2500, .paid, some ("cmp-ab12"), 1000⟩,
    ⟨2, 2500, .paid, some ("cmp-ab12"), 2000⟩,
    ⟨3, 2500, .paid, some ("cmp-ab12"), 3000⟩],
   [], []⟩

def c3Clock : Clock := ⟨4000, "2025-01-01", 0⟩

/-- C3 evaluation.  At runtime no recompute path can store the claimed
values: the cron aggregator updateMarketingStats aborts on a caught
ReferenceError and returns the store unchanged, and the helper
updateDailyStats throws before any read or write; on a store holding a
campaign with code cmp-ab12 and three same-day bookings totalling 7500,
no DailyStats row exists after recomputation even though the claimed
day-window count and sum are 3 and 7500.  (The booking query WRITTEN in the
unreachable loop body also lacks the upper bound of the claimed
[00:00, 24:00) window: see campaignStatsValues.) -/
theorem c3_recompute_stores_nothing :
    (∀ st : Store, ∀ clk : Clock, updateMarketingStats st clk = st)
    ∧ (∀ st : Store, ∀ cid : Nat, ∀ clk : Clock,
        (updateDailyStats st cid clk).1 = st ∧ (updateDailyStats st cid clk).2.isSome)
    ∧ findStatsRow (updateMarketingStats c3Store c3Clock).statsRows 1 ("2025-01-01") = none
    ∧ specConversionsInDayWindow c3Store.bookings ("cmp-ab12") 0 = 3
    ∧ specRevenueInDayWindow c3Store.bookings ("cmp-ab12") 0 = 7500 := by
  exact ⟨fun _ _ => rfl, fun _ _ _ => ⟨rfl, rfl⟩, by decide, by decide, by decide⟩

theorem c3_witness :
    updateMarketingStats c3Store c3Clock = c3Store
    ∧ (updateDailyStats c3Store 1 c3Clock).1 = c3Store
    ∧ (updateDailyStats c3Store 1 c3Clock).2.isSome :=
  ⟨c3_recompute_stores_nothing.1 c3Store c3Clock,
   (c3_recompute_stores_nothing.2.1 c3Store 1 c3Clock).1,
   (c3_recompute_stores_nothing.2.1 c3Store 1 c3Clock).2⟩

/- ===== Theorems: segment resolution (C4) ===== -/

theorem mem_allBookingUsers (bs : List BookingRec) (uid : Nat) :
    uid ∈ allBookingUsers bs ↔ ∃ b ∈ bs, b.user = uid := by
  simp [allBookingUsers, distinctUsers, List.mem_dedup, List.mem_map]

theorem notCheckedInUsers_eq_allBookingUsers (bs : List BookingRec) :
    notCheckedInUsers bs = allBookingUsers bs := by
  unfold notCheckedInUsers objectIdIncludes
  exact List.filter_true _

/-- C4 (amended).  Neither resolver computes the claimed set difference.  The
scheduler-path resolver getSegmentedRecipients, on a segment with status
not_checked, returns every directory user with at least one booking of ANY
status — checked-in ones included, because the attempted subtraction
compares ObjectId instances by reference and never removes anything —
intersected with the interest, location and age filters (users with no
booking at all are excluded there); and the route-path resolver
resolveSegmentQuery ignores the status filter entirely (see the
counterexample). -/
theorem c4_not_checked_is_all_booking_users (segment : Segment) (users : List UserRec)
    (bookings : List BookingRec) (u : UserRec) (h : segment.status = .not_checked) :
    u ∈ getSegmentedRecipients segment users bookings ↔
      u ∈ users
      ∧ (∃ b ∈ bookings, b.user = u.id)
      ∧ profileFiltersOk segment u = true := by
  unfold getSegmentedRecipients
  rw [List.mem_filter, h]
  simp only [Bool.and_eq_true, List.elem_iff, notCheckedInUsers_eq_allBookingUsers,
             mem_allBookingUsers, and_assoc]

def c4User : UserRec := ⟨1, "a@x.com", 30, "NY", []⟩

def c4CheckedUser : UserRec := ⟨2, "b@x.com", 40, "LA", []⟩

def c4Segment : Segment := ⟨.not_checked, [], [], none, none⟩

/-- The only booking of c4CheckedUser is checked-in. -/
def c4CheckedBookings : List BookingRec := [⟨2, 100, .checkedIn, none, 0⟩]

/-- C4 counterexample.  Two concrete refutations of the claim as stated:
the route-path resolver resolveSegmentQuery (used by the email create,
update, send and detail operations) returns a user with NO booking at all
for a not_checked segment; and the scheduler-path resolver
getSegmentedRecipients returns a user whose ONLY booking is checked-in —
the set difference would exclude both. -/
theorem c4_counterexample :
    resolveSegmentQuery c4Segment [c4User] = [c4User]
    ∧ getSegmentedRecipients c4Segment [c4CheckedUser] c4CheckedBookings
        = [c4CheckedUser] := by
  decide

def c4wUserA : UserRec := ⟨1, "a@x.com", 30, "NY", []⟩

def c4wUserB : UserRec := ⟨2, "b@x.com", 40, "LA", []⟩

def c4wUserC : UserRec := ⟨3, "c@x.com", 50, "SF", []⟩

/-- User 1 has a paid booking, user 2 only a checked-in booking, user 3 no
booking. -/
def c4wBookings : List BookingRec :=
  [⟨1, 100, .paid, none, 0⟩, ⟨2, 100, .checkedIn, none, 0⟩]

theorem c4_witness :
    c4Segment.status = SegStatus.not_checked
    ∧ c4wUserA ∈ getSegmentedRecipients c4Segment [c4wUserA, c4wUserB, c4wUserC] c4wBookings
    ∧ c4wUserB ∈ getSegmentedRecipients c4Segment [c4wUserA, c4wUserB, c4wUserC] c4wBookings
    ∧ c4wUserC ∉ getSegmentedRecipients c4Segment [c4wUserA, c4wUserB, c4wUserC] c4wBookings :=
  ⟨rfl,
   (c4_not_checked_is_all_booking_users c4Segment [c4wUserA, c4wUserB, c4wUserC]
      c4wBookings c4wUserA rfl).mpr ⟨by decide, by decide, by decide⟩,
   (c4_not_checked_is_all_booking_users c4Segment [c4wUserA, c4wUserB, c4wUserC]
      c4wBookings c4wUserB rfl).mpr ⟨by decide, by decide, by decide⟩,
   fun hmem =>
     by exact absurd ((c4_not_checked_is_all_booking_users c4Segment
       [c4wUserA, c4wUserB, c4wUserC] c4wBookings c4wUserC rfl).mp hmem).2.1 (by decide)⟩

/- ===== Theorems: tracking endpoints (C5, C6, C10) ===== -/

/-- C5.  The open endpoint responds with the pixel for every store, recipient
parameter and persistence outcome, and the click endpoint responds with a
redirect to the supplied destination url for every store, validity verdict
and persistence outcome: a persistence failure is never propagated into the
recipient-facing response. -/
theorem c5_artifact_survives_persistence_failure (st : Store) (emailId : Nat)
    (recipient : Option Nat) (persistFails : Bool) (clk : Clock) (u : String)
    (urlValid : Bool) :
    (trackOpenRoute st emailId recipient persistFails clk).1 = .pixel
    ∧ (trackClickRoute st emailId (some u) urlValid persistFails).1 = .redirect u := by
  constructor
  · unfold trackOpenRoute
    cases recipient with
    | none => rfl
    | some r => by_cases hp : persistFails <;> simp [hp]
  · unfold trackClickRoute
    by_cases hv : urlValid <;> by_cases hp : persistFails <;> simp [hv, hp]

def c5Job : EmailJob :=
  ⟨1, 100, "s", "t", "f@x.com", Segment.default, .Sent, "mock",
   EmailStats.zero, none, none, 0, 0, none, true, 0⟩

def c5Store : Store := ⟨[], [], [c5Job], [], [], [], []⟩

def c5Clock : Clock := ⟨9, "2025-01-01", 0⟩

theorem c5_witness :
    (trackOpenRoute c5Store 1 (some 3) true c5Clock).1 = .pixel
    ∧ (trackClickRoute c5Store 1 (some ("https://d.example")) true true).1
        = .redirect ("https://d.example") :=
  ⟨(c5_artifact_survives_persistence_failure c5Store 1 (some 3) true c5Clock
      ("https://d.example") true).1,
   (c5_artifact_survives_persistence_failure c5Store 1 (some 3) true c5Clock
      ("https://d.example") true).2⟩

/-- C6 (amended).  An open signal carrying a recipient identifier appends
exactly one EmailEvent of kind open but never increments the owning job's
opens counter — recordEmailEvent throws on the missing mongoose import right
after the event insert, before the counter update, and the route swallows
the error — so the job collection (indeed everything except the event list)
is untouched; a click signal only increments the owning job's clicks counter
by one: it appends NO EmailEvent and does not record the destination url
anywhere in the store. -/
theorem c6_open_appends_event_only_click_increments_only (st : Store) (emailId : Nat)
    (r : Nat) (u : String) (clk : Clock) :
    ((trackOpenRoute st emailId (some r) false clk).2.events
        = st.events ++ [(⟨emailId, some r, "open", none, clk.now⟩ : EventRec)])
    ∧ ((trackOpenRoute st emailId (some r) false clk).2.emailJobs = st.emailJobs)
    ∧ ((recordEmailEvent st emailId (some r) ("open") none clk).2.isSome)
    ∧ ((trackClickRoute st emailId (some u) true false).2.events = st.events)
    ∧ ((trackClickRoute st emailId (some u) true false).2.emailJobs
        = st.emailJobs.map (fun j => if j.id = emailId
            then { j with stats := { j.stats with clicks := j.stats.clicks + 1 } } else j)) :=
  ⟨rfl, rfl, rfl, rfl, rfl⟩

def c6Job : EmailJob :=
  ⟨1, 100, "s", "t", "f@x.com", Segment.default, .Sent, "mock",
   EmailStats.zero, none, none, 0, 0, none, true, 0⟩

def c6Store : Store := ⟨[], [], [c6Job], [], [], [], []⟩

def c6Clock : Clock := ⟨77, "2025-01-01", 0⟩

/-- C6 counterexample.  Two concrete refutations of the claim as stated, on
a job with zero counters and no prior events: an open request with a
recipient appends its event yet leaves the opens counter at 0 (the claimed
increment never happens), and a successful click request increments the
clicks counter to one yet leaves the event collection EMPTY — no
EngagementEvent of kind click and no destination url are recorded. -/
theorem c6_counterexample :
    (trackOpenRoute c6Store 1 (some 5) false c6Clock).2.events.length = 1
    ∧ ((getJob (trackOpenRoute c6Store 1 (some 5) false c6Clock).2 1).map
        (fun j => j.stats.opens)) = some 0
    ∧ (trackClickRoute c6Store 1 (some ("https://dest.example")) true false).2.events = []
    ∧ ((getJob (trackClickRoute c6Store 1 (some ("https://dest.example")) true false).2 1).map
        (fun j => j.stats.clicks)) = some 1 := by
  decide

def c6wStore : Store := ⟨[], [], [c6Job], [], [], [], []⟩

def c6wClock : Clock := ⟨78, "2025-01-01", 0⟩

theorem c6_witness :
    (trackOpenRoute c6wStore 1 (some 5) false c6wClock).2.events
      = [(⟨1, some 5, "open", none, 78⟩ : EventRec)]
    ∧ (trackOpenRoute c6wStore 1 (some 5) false c6wClock).2.emailJobs = [c6Job]
    ∧ (trackClickRoute c6wStore 1 (some ("x")) true false).2.events = [] := by
  have h := c6_open_appends_event_only_click_increments_only c6wStore 1 5 ("x") c6wClock
  exact ⟨h.1.trans (by decide), h.2.1.trans (by decide), h.2.2.2.1.trans (by decide)⟩

/-- C10.  An open-tracking request whose recipient parameter is absent
returns the pixel and performs no write at all: the entire store — events,
counters, stats rows, everything — is returned unchanged. -/
theorem c10_open_without_recipient_is_pure (st : Store) (emailId : Nat)
    (persistFails : Bool) (clk : Clock) :
    trackOpenRoute st emailId none persistFails clk = (.pixel, st) := rfl

theorem c10_witness :
    trackOpenRoute c5Store 2 none false c5Clock = (.pixel, c5Store) :=
  c10_open_without_recipient_is_pure c5Store 2 false c5Clock

/- ===== Theorems: email lifecycle gating (C7) ===== -/

/-- C7.  Editing any field of a non-Draft EmailCampaign is rejected with the
stored record returned unchanged; triggering a send is rejected — leaving the
record unchanged — unless the job is Draft AND its live-resolved recipient
set is non-empty, in which case exactly the Draft-to-Queued transition
happens (with nextBatchAt set to now). -/
theorem c7_only_draft_editable_send_needs_recipients (job : EmailJob)
    (e : EmailEdits) (users : List UserRec) (now : Nat) :
    (job.status ≠ .Draft →
        updateEmailRoute job e users = (some ("Only draft emails can be updated"), job)
        ∧ sendEmailRouteSync job users now
            = (.rejected ("Cannot send an email with status: " ++ job.status.str), job))
    ∧ (job.status = .Draft → resolveSegmentQuery job.segment users = [] →
        sendEmailRouteSync job users now
          = (.rejected ("No recipients match the segment criteria"), job))
    ∧ (job.status = .Draft → resolveSegmentQuery job.segment users ≠ [] →
        sendEmailRouteSync job users now
          = (.queued (resolveSegmentQuery job.segment users).length,
             { job with status := .Queued, nextBatchAt := some now })) := by
  refine ⟨fun h => ?_, fun h hre => ?_, fun h hre => ?_⟩
  · constructor
    · unfold updateEmailRoute
      rw [if_pos h]
    · unfold sendEmailRouteSync
      rw [if_pos h]
  · simp [sendEmailRouteSync, h, hre]
  · simp [sendEmailRouteSync, h, List.isEmpty_iff, hre]

def c7JobQueued : EmailJob :=
  ⟨1, 100, "s", "t", "f@x.com", Segment.default, .Queued, "mock",
   EmailStats.zero, none, none, 0, 0, none, true, 0⟩

def c7JobDraft : EmailJob :=
  ⟨2, 100, "s", "t", "f@x.com", Segment.default, .Draft, "mock",
   EmailStats.zero, none, none, 0, 0, none, true, 0⟩

def c7Edits : EmailEdits := ⟨some ("new subject"), none, none, none, none⟩

def c7User : UserRec := ⟨1, "a@x.com", 30, "NY", []⟩

theorem c7_witness :
    c7JobQueued.status ≠ EmailStatus.Draft
    ∧ updateEmailRoute c7JobQueued c7Edits []
        = (some ("Only draft emails can be updated"), c7JobQueued)
    ∧ resolveSegmentQuery c7JobDraft.segment [c7User] ≠ []
    ∧ sendEmailRouteSync c7JobDraft [c7User] 5
        = (.queued 1, { c7JobDraft with status := .Queued, nextBatchAt := some 5 }) := by
  refine ⟨by decide, ?_, by decide, ?_⟩
  · exact ((c7_only_draft_editable_send_needs_recipients c7JobQueued c7Edits [] 5).1
      (by decide)).1
  · exact ((c7_only_draft_editable_send_needs_recipients c7JobDraft c7Edits [c7User] 5).2.2
      (by decide) (by decide)).trans (by decide)

/- ===== Theorems: social scheduling (C8) ===== -/

/-- C8.  Scheduling a Draft SocialPost is rejected with a state error, the
record unchanged, whenever the parent campaign's status is not Active; and
when it is accepted with a requested schedule time strictly in the past, the
schedule time is silently advanced to now plus one minute (60000 ms) and the
post is queued, with no error. -/
theorem c8_schedule_needs_active_campaign_past_time_clamped
    (post : SocialPostRec) (cs : CampaignStatus) (now t : Nat) :
    (post.status = .Draft → cs ≠ .Active →
        scheduleSocialRoute post cs now
          = (some ("Cannot schedule post for campaign with status: " ++ cs.str), post))
    ∧ (post.status = .Draft → cs = .Active → post.scheduledAt = some t → t < now →
        scheduleSocialRoute post cs now
          = (none, { post with scheduledAt := some (now + 60000), status := .Queued })) := by
  constructor
  · intro hd hc
    unfold scheduleSocialRoute
    rw [if_neg (by simp [hd]), if_pos hc]
  · intro hd hc hs ht
    simp [scheduleSocialRoute, hd, hc, hs, Nat.le_of_lt ht]

def c8PostDraft : SocialPostRec :=
  ⟨1, 100, "facebook", "hello", some 40, .Draft, none, none, PostStats.zero, none⟩

theorem c8_witness :
    c8PostDraft.status = PostStatus.Draft
    ∧ scheduleSocialRoute c8PostDraft .Scheduled 50
        = (some ("Cannot schedule post for campaign with status: Scheduled"), c8PostDraft)
    ∧ c8PostDraft.scheduledAt = some 40 ∧ 40 < 50
    ∧ scheduleSocialRoute c8PostDraft .Active 50
        = (none, { c8PostDraft with scheduledAt := some 60050, status := .Queued }) := by
  refine ⟨rfl, ?_, rfl, by decide, ?_⟩
  · exact (c8_schedule_needs_active_campaign_past_time_clamped c8PostDraft .Scheduled 50 40).1
      rfl (by decide)
  · exact ((c8_schedule_needs_active_campaign_past_time_clamped c8PostDraft .Active 50 40).2
      rfl rfl rfl (by decide)).trans (by decide)

/- ===== Theorems: dispatch event recording (C9) ===== -/

theorem list_map_self {α : Type} (l : List α) (f : α → α)
    (h : ∀ a ∈ l, f a = a) : l.map f = l := by
  induction l with
  | nil => rfl
  | cons x xs ih =>
    rw [List.map_cons, h x (List.mem_cons_self x xs),
        ih (fun a ha => h a (List.mem_cons_of_mem x ha))]

theorem list_map_congr {α β : Type} (l : List α) (f g : α → β)
    (h : ∀ a ∈ l, f a = g a) : l.map f = l.map g := by
  induction l with
  | nil => rfl
  | cons x xs ih =>
    rw [List.map_cons, List.map_cons, h x (List.mem_cons_self x xs),
        ih (fun a ha => h a (List.mem_cons_of_mem x ha))]

/-- C9 evaluation.  A dispatch through processEmailCampaign records NO
EngagementEvent at all: the function aborts with a ReferenceError during
recipient resolution and its catch marks the job Failed, so neither the
one-event-per-recipient recording nor the claimed null-reference tolerance
ever happens; moreover an EmailEvent with a null attendee reference is
invalid under the schema's required constraint, so it could never be
recorded in any case. -/
theorem c9_dispatch_records_no_events (st : Store) (emailId : Nat) :
    (processEmailCampaign st emailId).events = st.events
    ∧ (processEmailCampaign st emailId).emailJobs
        = st.emailJobs.map (fun j =>
            if j.id = emailId then { j with status := EmailStatus.Failed } else j)
    ∧ emailEventValid (⟨emailId, none, "sent", none, 0⟩ : EventRec) = false := by
  refine ⟨rfl, ?_, rfl⟩
  have hjobs : (processEmailCampaign st emailId).emailJobs
      = (st.emailJobs.map (fun j =>
          if j.id = emailId then { j with status := EmailStatus.Sending } else j)).map
        (fun j =>
          if j.id = emailId then { j with status := EmailStatus.Failed } else j) := rfl
  rw [hjobs, List.map_map]
  apply list_map_congr
  intro j _
  by_cases hid : j.id = emailId <;> simp [Function.comp, hid]

def c9Job : EmailJob :=
  ⟨3, 100, "s", "t", "f@x.com", Segment.default, .Queued, "mock",
   EmailStats.zero, some 0, none, 0, 0, none, true, 0⟩

def c9Store : Store := ⟨[], [], [c9Job], [], [], [], []⟩

theorem c9_witness :
    (processEmailCampaign c9Store 3).events = []
    ∧ (getJob (processEmailCampaign c9Store 3) 3).map (fun j => j.status)
        = some EmailStatus.Failed := by
  have h := c9_dispatch_records_no_events c9Store 3
  refine ⟨h.1.trans (by decide), ?_⟩
  have h2 := h.2.1
  unfold getJob
  rw [h2]
  decide

/- ===== Theorems: batched dispatch (C2) ===== -/

theorem cronEmailTick_no_queued (st : Store) (now : Nat)
    (h : ∀ j ∈ st.emailJobs, j.status ≠ .Queued) : cronEmailTick st now = st := by
  have hx : st.emailJobs.map (fun j =>
      if j.status = .Queued ∧ dueAt j.scheduledAt now then
        let recips := getSegmentedRecipients j.segment st.users st.bookings
        let s' := { j.stats with sent := recips.length, delivered := floor95 recips.length }
        { j with status := .Sent, sentAt := some now, stats := s',
                 recipientsCount := recips.length, recipientsProcessed := recips.length }
      else j) = st.emailJobs := by
    apply list_map_self
    intro j hj
    rw [if_neg]
    rintro ⟨h1, _⟩
    exact h j hj h1
  unfold cronEmailTick
  rw [hx]

theorem foldl_cronEmailTick_no_queued (st : Store) (times : List Nat)
    (h : ∀ j ∈ st.emailJobs, j.status ≠ .Queued) :
    times.foldl (fun s t => cronEmailTick s t) st = st := by
  induction times with
  | nil => rfl
  | cons t ts ih => rw [List.foldl_cons, cronEmailTick_no_queued st t h, ih]

/-- The 120-user directory of the scenario. -/
def c2Users : List UserRec :=
  (List.range 120).map (fun i => ⟨i, toString i ++ "@x.com", 30, "NY", []⟩)

def c2Campaign : CampaignRec := ⟨100, .Active, "cmp-c2", 0, 10⟩

/-- The Draft EmailCampaign about to be sent to the 120 users. -/
def c2Job : EmailJob :=
  ⟨1, 100, "subject", "<p>hi</p>", "f@x.com", Segment.default, .Draft, "mock",
   EmailStats.zero, none, none, 0, 0, none, true, 0⟩

def c2Store : Store := ⟨c2Users, [c2Campaign], [c2Job], [], [], [], []⟩

def c2Clock : Clock := ⟨1000, "2025-01-01", 0⟩

/-- The recipients captured by the send route's closure. -/
def c2Recips : List UserRec := resolveSegmentQuery c2Job.segment c2Users

/-- The store right after the synchronous part of the send route. -/
def c2Queued : Store :=
  { c2Store with emailJobs := [(sendEmailRouteSync c2Job c2Users c2Clock.now).2] }

/-- The store after the detached first batch has run (tick one). -/
def c2St1 : Store := emailSendFirstBatch c2Queued 1 100 c2Recips c2Clock

/-- A Queued, scheduled EmailCampaign as the cron path would find it, with a
prior cumulative sent counter of 7. -/
def c2CronJob : EmailJob :=
  ⟨2, 100, "subject", "<p>hi</p>", "f@x.com", Segment.default, .Queued, "mock",
   ⟨7, 0, 0, 0, 0⟩, some 0, none, 0, 0, none, true, 0⟩

def c2CronStore : Store := ⟨c2Users, [c2Campaign], [c2CronJob], [], [], [], []⟩

set_option maxRecDepth 100000 in
/-- C2 evaluation.  For an EmailCampaign whose segment resolves to 120
recipients: (a) the send route accepts and queues it; (b) the detached first
batch appends ONE sent event (for the first recipient) and then marks the
job Failed — recordEmailEvent throws on the missing mongoose import, the
task's catch fires, and the cumulative sent counter stays 0, with
nextBatchAt still the queueing time; (c) no sequence of scheduler ticks ever
touches the job again, because the cron selects only Queued jobs, so the job
never reaches sent 10, let alone 120 or status Sent; (d) no recordEmailEvent
call of any event type ever touches any job (it throws before any counter
update), so no tracking path accumulates the sent counter either; (e) the
cron path, on a Queued scheduled job, dispatches all 120 recipients in a
single tick and OVERWRITES the cumulative sent counter (7 before, 120
after, not 127). -/
theorem c2_first_batch_fails_cron_overwrites :
    (sendEmailRouteSync c2Job c2Users c2Clock.now).1 = .queued 120
    ∧ (getJob c2St1 1).map (fun j => (j.status, j.stats.sent, j.nextBatchAt))
        = some (.Failed, 0, some 1000)
    ∧ c2St1.events = [(⟨1, some 0, "sent", none, 1000⟩ : EventRec)]
    ∧ (∀ times : List Nat, times.foldl (fun s t => cronEmailTick s t) c2St1 = c2St1)
    ∧ (∀ st : Store, ∀ cid : Nat, ∀ att : Option Nat, ∀ ev : String,
        ∀ url : Option String, ∀ clk : Clock,
        (recordEmailEvent st cid att ev url clk).1.emailJobs = st.emailJobs
        ∧ (recordEmailEvent st cid att ev url clk).2.isSome)
    ∧ (getJob c2CronStore 2).map (fun j => j.stats.sent) = some 7
    ∧ (getJob (cronEmailTick c2CronStore 50) 2).map (fun j => (j.status, j.stats.sent))
        = some (.Sent, 120) := by
  refine ⟨by decide, by decide, by decide, ?_, ?_, by decide, by decide⟩
  · intro times
    exact foldl_cronEmailTick_no_queued c2St1 times (by decide)
  · intro st cid att ev url clk
    exact ⟨rfl, rfl⟩

set_option maxRecDepth 100000 in
theorem c2_witness :
    List.foldl (fun s t => cronEmailTick s t) c2St1 [2000, 62000, 122000] = c2St1
    ∧ (recordEmailEvent c2CronStore 2 (some 4) ("open") none c2Clock).1.emailJobs
        = c2CronStore.emailJobs :=
  ⟨(c2_first_batch_fails_cron_overwrites).2.2.2.1 [2000, 62000, 122000],
   ((c2_first_batch_fails_cron_overwrites).2.2.2.2.1 c2CronStore 2 (some 4) ("open") none
     c2Clock).1⟩

end Backend
